import Mathlib

/-
  Verification development for the app-functions-sdk-go event-processing core.

  The Go source is shallowly embedded in Lean:
  * `Configurable` models the string-keyed pipeline builder in
    src/appsdk/configurable.go (HTTPPost, BatchByCount, BatchByTime).
  * `Transforms` models the HTTP sender transform (its implementation file is
    not part of the excerpted source; it is modelled from the specification and
    corroborated by the transform tests that are in the source) together with
    the batch-stage constructors.
  * `Mqtt` models the MQTT trigger (Initialize, onConnectHandler,
    messageHandler) from the trigger source file.

  External effects (broker connects, HTTP endpoints, the secret store, the
  pipeline runtime) are passed in as explicit environment values so every
  definition stays executable.
-/

namespace AppSdk

/-- Go strconv.ParseBool: accepts 1, t, T, TRUE, true, True, 0, f, F, FALSE,
false, False; anything else is a parse error. -/
def parseBool (s : String) : Option Bool :=
  if s = "1" ∨ s = "t" ∨ s = "T" ∨ s = "TRUE" ∨ s = "true" ∨ s = "True" then some true
  else if s = "0" ∨ s = "f" ∨ s = "F" ∨ s = "FALSE" ∨ s = "false" ∨ s = "False" then some false
  else none

/-- Whitespace as recognized by Go strings.TrimSpace (the ASCII cases). -/
def isSpaceChar (c : Char) : Bool :=
  c = ' ' ∨ c = '\t' ∨ c = '\n' ∨ c = '\r'

/-- Go strings.TrimSpace: drop leading and trailing whitespace. -/
def trimSpace (s : String) : String :=
  String.mk (((s.toList.dropWhile isSpaceChar).reverse.dropWhile isSpaceChar).reverse)

/-- The numeric value of a decimal digit character. -/
def digitVal (c : Char) : Option Nat :=
  if c.isDigit then some (c.toNat - 48) else none

/-- Accumulate decimal digits into a number; any non-digit is a parse
error. -/
def digitsToNatAux : List Char → Nat → Option Nat
  | [], acc => some acc
  | c :: cs, acc =>
    match digitVal c with
    | none => none
    | some d => digitsToNatAux cs (acc * 10 + d)

/-- Parse a non-empty all-digit character sequence. -/
def parseDigits : List Char → Option Nat
  | [] => none
  | cs => digitsToNatAux cs 0

/-- Go strconv.Atoi: an optional sign followed by decimal digits; anything
else is a parse error. -/
def atoi (s : String) : Option Int :=
  match s.toList with
  | '-' :: cs => (parseDigits cs).map (fun n => -(n : Int))
  | '+' :: cs => (parseDigits cs).map (fun n => (n : Int))
  | cs => (parseDigits cs).map (fun n => (n : Int))

/-- A pipeline-stage parameter map (the Go map[string]string), as an
association list. -/
abbrev Params := List (String × String)

/-- Map lookup returning an Option, modelling `v, ok := parameters[k]`. -/
def lookupParam (ps : Params) (k : String) : Option String :=
  (ps.find? (fun p => p.1 = k)).map Prod.snd

/-- Go map indexing `parameters[k]`, which yields the zero value "" when the
key is absent. -/
def indexParam (ps : Params) (k : String) : String :=
  (lookupParam ps k).getD ""

/-- Parameter-map key constants from src/appsdk/configurable.go. -/
def Url : String := "url"

/-- Key constant for the sender MIME type parameter. -/
def MimeType : String := "mimetype"

/-- Key constant for the optional persist-on-error parameter. -/
def PersistOnError : String := "persistonerror"

/-- Key constant for the first secret header name parameter. -/
def SecretHeaderName1 : String := "secretheadername1"

/-- Key constant for the second secret header name parameter. -/
def SecretHeaderName2 : String := "secretheadername2"

/-- Key constant for the secret path parameter. -/
def SecretPath : String := "secretpath"

/-- Key constant for the batch count threshold parameter. -/
def BatchThreshold : String := "batchthreshold"

/-- Key constant for the batch time interval parameter. -/
def TimeInterval : String := "timeinterval"

namespace Transforms

/-- The transforms.HTTPSender structure: endpoint URL, MIME type, the
persist-on-error flag, and the optional secret-header configuration. -/
structure HTTPSender where
  url : String
  mimeType : String
  persistOnError : Bool
  secretHeaderName1 : String
  secretHeaderName2 : String
  secretPath : String
deriving DecidableEq, Repr

/-- transforms.NewHTTPSender: a sender with no secret-header configuration. -/
def NewHTTPSender (url mimeType : String) (persistOnError : Bool) : HTTPSender :=
  ⟨url, mimeType, persistOnError, "", "", ""⟩

/-- transforms.NewHTTPSenderWithSecretHeader: a sender carrying a secret
header name pair and a secret path. -/
def NewHTTPSenderWithSecretHeader (url mimeType : String) (persistOnError : Bool)
    (headerName1 headerName2 secretPath : String) : HTTPSender :=
  ⟨url, mimeType, persistOnError, headerName1, headerName2, secretPath⟩

/-- The shapes of a value handed to a pipeline function: raw bytes, a string,
a value with a JSON encoding, or a value (such as a Go channel) that cannot be
marshaled to JSON. -/
inductive PipelineData where
  | bytes (bs : List UInt8)
  | str (s : String)
  | jsonValue (encoding : List UInt8)
  | nonMarshalable
deriving DecidableEq, Repr

/-- The UTF-8 bytes of a string. -/
def strBytes (s : String) : List UInt8 :=
  s.toUTF8.toList

/-- Modelled from the spec: the sender input coercion (util.CoerceType is not
under the excerpted source). Raw bytes and strings pass through as bytes, a
JSON-marshalable value becomes its encoding, and any other input is the
documented marshaling usage error. -/
def coerceType : PipelineData → Except String (List UInt8)
  | .bytes bs => .ok bs
  | .str s => .ok (strBytes s)
  | .jsonValue enc => .ok enc
  | .nonMarshalable =>
      .error "marshaling input data to JSON failed, passed in data must be of type []byte, string, or support marshaling to JSON"

/-- The per-invocation pipeline context fields the sender touches: the output
data and the retry data that the persist-on-error contract sets. -/
structure Context where
  correlationID : String := ""
  outputData : List UInt8 := []
  retryData : Option (List UInt8) := none
deriving DecidableEq, Repr

/-- Modelled from the spec: the secret-configuration check of the sender (the
HTTPSender implementation file is not under the excerpted source; the error
strings are those asserted by the transform tests that are). Returns whether
secrets are in use, or the configuration-mismatch error. -/
def determineIfUsingSecrets (sender : HTTPSender) : Except String Bool :=
  if sender.secretHeaderName1 = "" ∧ sender.secretPath = "" then .ok false
  else if sender.secretHeaderName1 = "" then
    .error "SecretPath was specified but no header name was provided"
  else if sender.secretPath = "" then
    .error "HTTP Header Secret Name was provided but no SecretPath was provided"
  else .ok true

/-- The observable outcome of one sender invocation: the (shouldContinue,
error) pair of the pipeline-function contract, the context after the call, and
whether an HTTP request was actually attempted. -/
structure SendResult where
  continuePipeline : Bool
  errMsg : Option String
  ctx : Context
  requestAttempted : Bool
deriving DecidableEq, Repr

/-- Modelled from the spec: the shared send path of HTTPSender.HTTPPost and
HTTPSender.HTTPPut (the implementation file is not under the excerpted
source). Checks for absent input, coerces the input to bytes, validates the
secret configuration, fetches the secret when configured (a lookup failure is
a failed send subject to the retry contract), performs the HTTP request
(`endpointOk` stands for the endpoint answering with success), and on a failed
send applies the persist-on-error contract: set the context retry data to the
exact bytes that failed to send, then return (false, error). -/
def httpSend (sender : HTTPSender) (store : String → String → Except String String)
    (endpointOk : Bool) (ctx : Context) (params : List PipelineData) : SendResult :=
  match params with
  | [] => ⟨false, some "No Data Received", ctx, false⟩
  | d :: _ =>
    match coerceType d with
    | .error e => ⟨false, some e, ctx, false⟩
    | .ok exportData =>
      match determineIfUsingSecrets sender with
      | .error e => ⟨false, some e, ctx, false⟩
      | .ok usingSecrets =>
        let fetched : Except String Unit :=
          if usingSecrets then
            match store sender.secretPath sender.secretHeaderName1 with
            | .error e => .error e
            | .ok _ => .ok ()
          else .ok ()
        match fetched with
        | .error e =>
          let ctx := if sender.persistOnError then { ctx with retryData := some exportData } else ctx
          ⟨false, some e, ctx, false⟩
        | .ok _ =>
          if endpointOk then ⟨true, none, ctx, true⟩
          else
            let ctx := if sender.persistOnError then { ctx with retryData := some exportData } else ctx
            ⟨false, some "export failed with non-2xx HTTP status code", ctx, true⟩

/-- Modelled from the spec: transforms.NewBatchByCount (not under the
excerpted source) rejects a count threshold of zero or negative at
construction time. -/
def NewBatchByCount (batchThreshold : Int) : Except String Int :=
  if batchThreshold < 1 then .error "batchThreshold must be greater than 0"
  else .ok batchThreshold

/-- Nanoseconds per Go duration unit. -/
def durationUnitNanos (u : String) : Option Int :=
  if u = "ns" then some 1
  else if u = "us" then some 1000
  else if u = "ms" then some 1000000
  else if u = "s" then some 1000000000
  else if u = "m" then some 60000000000
  else if u = "h" then some 3600000000000
  else none

/-- Modelled from the spec: the duration syntax accepted for the batch time
interval — an integer count followed by a Go duration unit; anything else
fails to parse. -/
def parseGoDuration (s : String) : Option Int :=
  let cs := s.toList
  let ds := cs.takeWhile Char.isDigit
  let rest := cs.dropWhile Char.isDigit
  match parseDigits ds, durationUnitNanos (String.mk rest) with
  | some n, some mult => some ((n : Int) * mult)
  | _, _ => none

/-- Modelled from the spec: transforms.NewBatchByTime (not under the excerpted
source) rejects a time interval that fails to parse as a positive duration. -/
def NewBatchByTime (timeInterval : String) : Except String Int :=
  match parseGoDuration timeInterval with
  | none => .error ("could not parse duration " ++ timeInterval)
  | some d => if d ≤ 0 then .error "time interval must be a positive duration" else .ok d

/-- True when a constructor result is the error case. -/
def constructorFailed : Except String Int → Bool
  | .error _ => true
  | .ok _ => false

end Transforms

namespace Configurable

/-- The AppFunctionsSDKConfigurable.HTTPPost builder from
src/appsdk/configurable.go: url and mimetype are required, persistonerror is
optional (default false, an unparsable value is a build error), and the secret
sender is chosen only when secretheadername1 and secretpath are both
non-empty; otherwise a plain sender is built. `none` models the Go builder
returning nil (no function for the stage). -/
def HTTPPost (parameters : Params) : Option Transforms.HTTPSender :=
  match lookupParam parameters Url with
  | none => none
  | some url =>
    match lookupParam parameters MimeType with
    | none => none
    | some mimeType =>
      let persistStep : Option Bool :=
        match lookupParam parameters PersistOnError with
        | none => some false
        | some v => parseBool v
      match persistStep with
      | none => none
      | some persistOnError =>
        let url := trimSpace url
        let mimeType := trimSpace mimeType
        let sh1 := indexParam parameters SecretHeaderName1
        let sh2 := indexParam parameters SecretHeaderName2
        let sp := indexParam parameters SecretPath
        if sh1 ≠ "" ∧ sp ≠ "" then
          some (Transforms.NewHTTPSenderWithSecretHeader url mimeType persistOnError sh1 sh2 sp)
        else
          some (Transforms.NewHTTPSender url mimeType persistOnError)

/-- The value a batch builder returns in place of the Go `transform.Batch`
method value: `valid` carries a successfully constructed stage configuration,
`broken` is the method value taken on the zero-value transform left behind by
a failed constructor (still a non-nil function in Go). -/
inductive BatchStage where
  | valid (cfg : Int)
  | broken
deriving DecidableEq, Repr

/-- The AppFunctionsSDKConfigurable.BatchByCount builder from
src/appsdk/configurable.go: a missing or non-integer batchthreshold yields
nil, but a constructor error from NewBatchByCount is only logged — the builder
still returns transform.Batch. -/
def BatchByCount (parameters : Params) : Option BatchStage :=
  match lookupParam parameters BatchThreshold with
  | none => none
  | some batchThreshold =>
    match atoi batchThreshold with
    | none => none
    | some thresholdValue =>
      match Transforms.NewBatchByCount thresholdValue with
      | .ok cfg => some (.valid cfg)
      | .error _ => some .broken

/-- The AppFunctionsSDKConfigurable.BatchByTime builder from
src/appsdk/configurable.go: a missing timeinterval yields nil, but a
constructor error from NewBatchByTime is only logged — the builder still
returns transform.Batch. -/
def BatchByTime (parameters : Params) : Option BatchStage :=
  match lookupParam parameters TimeInterval with
  | none => none
  | some timeInterval =>
    match Transforms.NewBatchByTime timeInterval with
    | .ok cfg => some (.valid cfg)
    | .error _ => some .broken

end Configurable

namespace Mqtt

/-- The configuration and external-call outcomes visible to
Trigger.Initialize: whether a background channel was passed, the configured
subscribe topic, and the results of the broker URL parse, the connect-timeout
parse (true also when no timeout is configured), the secure-client factory,
the broker connect, and the topic subscribe. -/
structure InitEnv where
  backgroundProvided : Bool
  subscribeTopic : String
  urlValid : Bool
  connectTimeoutOk : Bool
  clientCreateOk : Bool
  connectOk : Bool
  subscribeOk : Bool
deriving DecidableEq, Repr

/-- The (deferred, error) pair Initialize returns: `deferredAction` is the
success case (a teardown action and nil error), `initError` the failure
case (nil deferred and an error). -/
inductive InitResult where
  | deferredAction
  | initError (msg : String)
deriving DecidableEq, Repr

/-- The result of Initialize together with whether `mqttClient.Connect()` was
reached. -/
structure InitOutcome where
  result : InitResult
  connectAttempted : Bool
deriving DecidableEq, Repr

/-- Trigger.Initialize from the MQTT trigger source: reject a non-nil
background channel first, then a missing subscribe topic, an invalid broker
URL, an unparsable connect timeout, a failed secure-client creation, and a
failed connect; otherwise return the deferred disconnect action. The
subscribe outcome is not consulted: subscription happens later, in the
on-connect callback. -/
def Initialize (env : InitEnv) : InitOutcome :=
  if env.backgroundProvided then
    ⟨.initError "background publishing not supported for services using MQTT trigger", false⟩
  else if env.subscribeTopic.isEmpty then
    ⟨.initError "missing SubscribeTopic for MQTT Trigger. Must be present in [Binding] section.", false⟩
  else if !env.urlValid then
    ⟨.initError "invalid MQTT Broker Url", false⟩
  else if !env.connectTimeoutOk then
    ⟨.initError "invalid MQTT ConnectTimeout", false⟩
  else if !env.clientCreateOk then
    ⟨.initError "unable to create secure MQTT Client", false⟩
  else if !env.connectOk then
    ⟨.initError "could not connect to broker for MQTT trigger", true⟩
  else
    ⟨.deferredAction, true⟩

/-- What the on-connect callback did: whether the subscription stands and
whether it disconnected the client after a failed subscribe. -/
structure ConnectHandlerOutcome where
  subscribed : Bool
  disconnectedAfterFailure : Bool
deriving DecidableEq, Repr

/-- Trigger.onConnectHandler from the MQTT trigger source: subscribe to the
configured topic; on failure disconnect the client and log the error. -/
def onConnectHandler (env : InitEnv) : ConnectHandlerOutcome :=
  if !env.subscribeOk then ⟨false, true⟩ else ⟨true, false⟩

/-- Content type constant clients.ContentTypeJSON. -/
def ContentTypeJSON : String := "application/json"

/-- Content type constant clients.ContentTypeCBOR. -/
def ContentTypeCBOR : String := "application/cbor"

/-- The content-type classification at the top of Trigger.messageHandler:
default to JSON, switch to CBOR when the first payload byte is not the
opening-brace byte 123. The Go code indexes `data[0]` unconditionally, so an
empty payload is an out-of-bounds access — modelled as `none`. -/
def classifyContentType (data : List UInt8) : Option String :=
  match data with
  | [] => none
  | b :: _ => if b ≠ 123 then some ContentTypeCBOR else some ContentTypeJSON

/-- The inbound message and the external outcomes visible to
Trigger.messageHandler: the payload, the configured publish topic, whether
runtime.ProcessMessage returned an error, the context output data it left
behind, and whether the response publish to the broker succeeds. -/
structure HandlerEnv where
  payload : List UInt8
  publishTopic : String
  runtimeFails : Bool
  runtimeOutput : List UInt8
  publishOk : Bool
deriving DecidableEq, Repr

/-- The observable outcome of one messageHandler run: the classified content
type, whether a response publish was attempted, whether it succeeded, and
whether a publish failure was logged. -/
structure HandlerOutcome where
  contentType : String
  publishAttempted : Bool
  publishSucceeded : Bool
  publishFailureLogged : Bool
deriving DecidableEq, Repr

/-- Trigger.messageHandler from the MQTT trigger source: classify the content
type from payload byte 0 (out of bounds on an empty payload, modelled as
`none`), run the runtime, and on success publish the context output data to
the configured publish topic when the output is non-empty and a topic is
configured; a publish failure is only logged. -/
def messageHandler (env : HandlerEnv) : Option HandlerOutcome :=
  match classifyContentType env.payload with
  | none => none
  | some ct =>
    if env.runtimeFails then some ⟨ct, false, false, false⟩
    else if !env.runtimeOutput.isEmpty && !env.publishTopic.isEmpty then
      if env.publishOk then some ⟨ct, true, true, false⟩
      else some ⟨ct, true, false, true⟩
    else some ⟨ct, false, false, false⟩

end Mqtt

/-- A default pipeline context: empty output, no retry data. -/
def ctx0 : Transforms.Context := {}

/-- A secret store that answers every lookup with the value "value". -/
def storeOk : String → String → Except String String := fun _ _ => .ok "value"

/-- C1: a failing send through a sender with persistOnError=true returns
(false, error) and sets the context retry data to the exact payload bytes
that failed to send; the same failing send with persistOnError=false returns
(false, error) and leaves the retry data unset. -/
theorem httpSender_persistOnError_retry_contract
    (url mime : String) (payload : List UInt8)
    (store : String → String → Except String String) (ctx : Transforms.Context)
    (h : ctx.retryData = none) :
    ((Transforms.httpSend (Transforms.NewHTTPSender url mime true) store false ctx
        [Transforms.PipelineData.bytes payload]).continuePipeline = false
      ∧ (Transforms.httpSend (Transforms.NewHTTPSender url mime true) store false ctx
        [Transforms.PipelineData.bytes payload]).errMsg.isSome = true
      ∧ (Transforms.httpSend (Transforms.NewHTTPSender url mime true) store false ctx
        [Transforms.PipelineData.bytes payload]).ctx.retryData = some payload)
    ∧
    ((Transforms.httpSend (Transforms.NewHTTPSender url mime false) store false ctx
        [Transforms.PipelineData.bytes payload]).continuePipeline = false
      ∧ (Transforms.httpSend (Transforms.NewHTTPSender url mime false) store false ctx
        [Transforms.PipelineData.bytes payload]).errMsg.isSome = true
      ∧ (Transforms.httpSend (Transforms.NewHTTPSender url mime false) store false ctx
        [Transforms.PipelineData.bytes payload]).ctx.retryData = none) := by
  simp [Transforms.httpSend, Transforms.NewHTTPSender, Transforms.determineIfUsingSecrets,
    Transforms.coerceType, h]

/-- Closed instance of the C1 theorem at a concrete sender, payload and
context. -/
theorem httpSender_persistOnError_retry_contract_witness :
    ctx0.retryData = none ∧
    (((Transforms.httpSend (Transforms.NewHTTPSender "http://x/y" "" true) storeOk false ctx0
        [Transforms.PipelineData.bytes [1, 2]]).continuePipeline = false
      ∧ (Transforms.httpSend (Transforms.NewHTTPSender "http://x/y" "" true) storeOk false ctx0
        [Transforms.PipelineData.bytes [1, 2]]).errMsg.isSome = true
      ∧ (Transforms.httpSend (Transforms.NewHTTPSender "http://x/y" "" true) storeOk false ctx0
        [Transforms.PipelineData.bytes [1, 2]]).ctx.retryData = some [1, 2])
    ∧
    ((Transforms.httpSend (Transforms.NewHTTPSender "http://x/y" "" false) storeOk false ctx0
        [Transforms.PipelineData.bytes [1, 2]]).continuePipeline = false
      ∧ (Transforms.httpSend (Transforms.NewHTTPSender "http://x/y" "" false) storeOk false ctx0
        [Transforms.PipelineData.bytes [1, 2]]).errMsg.isSome = true
      ∧ (Transforms.httpSend (Transforms.NewHTTPSender "http://x/y" "" false) storeOk false ctx0
        [Transforms.PipelineData.bytes [1, 2]]).ctx.retryData = none)) :=
  ⟨rfl, httpSender_persistOnError_retry_contract "http://x/y" "" [1, 2] storeOk ctx0 rfl⟩

/-- C5: a sender invoked with a non-marshalable input returns (false, error)
with exactly the documented marshaling error message, and a sender invoked
with no input at all returns (false, "No Data Received"); in both cases the
context is untouched and no request is attempted. -/
theorem httpSender_input_errors (sender : Transforms.HTTPSender)
    (store : String → String → Except String String) (endpointOk : Bool)
    (ctx : Transforms.Context) :
    Transforms.httpSend sender store endpointOk ctx [Transforms.PipelineData.nonMarshalable]
      = ⟨false,
         some "marshaling input data to JSON failed, passed in data must be of type []byte, string, or support marshaling to JSON",
         ctx, false⟩
    ∧ Transforms.httpSend sender store endpointOk ctx []
      = ⟨false, some "No Data Received", ctx, false⟩ :=
  ⟨rfl, rfl⟩

/-- The builder parameter map for the counterexample of C2: a secret path is
supplied but no secret header name. -/
def mismatchParams : Params := [(Url, "http://localhost"), (MimeType, ""), (SecretPath, "/path")]

/-- C2 counterexample: with a secret path and no header name, sender
construction does not fail — the configurable builder returns a plain
(non-secret) sender, and a directly constructed mismatched sender accepts
construction and then rejects an individual send call with the documented
message, so the error is per-call, not build-time. -/
theorem httpPost_builder_mismatch_counterexample :
    Configurable.HTTPPost mismatchParams
      = some (Transforms.NewHTTPSender "http://localhost" "" false)
    ∧ (Transforms.httpSend
        (Transforms.NewHTTPSenderWithSecretHeader "http://u" "" false "" "" "/path")
        storeOk true ctx0 [Transforms.PipelineData.str "test message"]).errMsg
      = some "SecretPath was specified but no header name was provided" :=
  ⟨rfl, rfl⟩

/-- C2 as amended: the secret-configuration mismatch is handled per call, not
at build time. The builder, given a secret path without a header name, still
constructs a plain sender; a sender holding a secret path without a header
name (or a header name without a path) fails each send call with (false, the
respective documented message) before attempting the HTTP request. -/
theorem httpPost_secret_mismatch_is_per_call
    (url mime sp : String) (_hsp : sp ≠ "")
    (sender sender2 : Transforms.HTTPSender)
    (store : String → String → Except String String) (endpointOk : Bool)
    (ctx : Transforms.Context) (s : String)
    (h1 : sender.secretHeaderName1 = "") (h2 : sender.secretPath ≠ "")
    (h3 : sender2.secretHeaderName1 ≠ "") (h4 : sender2.secretPath = "") :
    Configurable.HTTPPost [(Url, url), (MimeType, mime), (SecretPath, sp)]
      = some (Transforms.NewHTTPSender (trimSpace url) (trimSpace mime) false)
    ∧ Transforms.httpSend sender store endpointOk ctx [Transforms.PipelineData.str s]
      = ⟨false, some "SecretPath was specified but no header name was provided", ctx, false⟩
    ∧ Transforms.httpSend sender2 store endpointOk ctx [Transforms.PipelineData.str s]
      = ⟨false, some "HTTP Header Secret Name was provided but no SecretPath was provided", ctx, false⟩ := by
  refine ⟨rfl, ?_, ?_⟩
  · have hd : Transforms.determineIfUsingSecrets sender
        = .error "SecretPath was specified but no header name was provided" := by
      unfold Transforms.determineIfUsingSecrets
      simp [h1, h2]
    simp [Transforms.httpSend, Transforms.coerceType, hd]
  · have hd : Transforms.determineIfUsingSecrets sender2
        = .error "HTTP Header Secret Name was provided but no SecretPath was provided" := by
      unfold Transforms.determineIfUsingSecrets
      simp [h3, h4]
    simp [Transforms.httpSend, Transforms.coerceType, hd]

/-- Closed instance of the amended C2 theorem at concrete senders and
parameters. -/
theorem httpPost_secret_mismatch_is_per_call_witness :
    "/path" ≠ "" ∧
    (Configurable.HTTPPost [(Url, "http://h/p"), (MimeType, "x"), (SecretPath, "/path")]
      = some (Transforms.NewHTTPSender "http://h/p" "x" false)
    ∧ Transforms.httpSend
        (Transforms.NewHTTPSenderWithSecretHeader "http://h/p" "x" false "" "" "/path")
        storeOk true ctx0 [Transforms.PipelineData.str "m"]
      = ⟨false, some "SecretPath was specified but no header name was provided", ctx0, false⟩
    ∧ Transforms.httpSend
        (Transforms.NewHTTPSenderWithSecretHeader "http://h/p" "x" false "Secret-Header-Name" "" "")
        storeOk true ctx0 [Transforms.PipelineData.str "m"]
      = ⟨false, some "HTTP Header Secret Name was provided but no SecretPath was provided", ctx0, false⟩) :=
  ⟨by decide,
   httpPost_secret_mismatch_is_per_call "http://h/p" "x" "/path" (by decide)
     (Transforms.NewHTTPSenderWithSecretHeader "http://h/p" "x" false "" "" "/path")
     (Transforms.NewHTTPSenderWithSecretHeader "http://h/p" "x" false "Secret-Header-Name" "" "")
     storeOk true ctx0 "m" rfl (by decide) (by decide) rfl⟩

/-- An MQTT trigger environment in which everything up to and including the
broker connect succeeds but the topic subscribe fails. -/
def envSubscribeFails : Mqtt.InitEnv :=
  ⟨false, "edgex/events", true, true, true, true, false⟩

/-- C3 counterexample: when the connect succeeds but the subscribe fails,
Initialize still returns success (the deferred action and nil error) — the
subscribe failure is only handled inside the on-connect callback, so a
subscribe failure is not fatal to Initialize. -/
theorem mqtt_initialize_succeeds_despite_subscribe_failure :
    Mqtt.Initialize envSubscribeFails = ⟨.deferredAction, true⟩
    ∧ (Mqtt.onConnectHandler envSubscribeFails).subscribed = false :=
  ⟨rfl, rfl⟩

/-- C3 as amended: a broker connection failure is fatal to Initialize, but a
subscribe failure is not: the outcome of Initialize does not depend on the
subscribe result at all, and a failed subscribe is handled in the on-connect
callback by disconnecting the client and logging the error. -/
theorem mqtt_connect_failure_fatal_subscribe_not (env : Mqtt.InitEnv) (b : Bool)
    (hbg : env.backgroundProvided = false) (ht : env.subscribeTopic.isEmpty = false)
    (hu : env.urlValid = true) (hc : env.connectTimeoutOk = true)
    (hcc : env.clientCreateOk = true) :
    (env.connectOk = false →
      Mqtt.Initialize env = ⟨.initError "could not connect to broker for MQTT trigger", true⟩)
    ∧ Mqtt.Initialize { env with subscribeOk := b } = Mqtt.Initialize env
    ∧ (env.subscribeOk = false → Mqtt.onConnectHandler env = ⟨false, true⟩) := by
  refine ⟨fun hco => ?_, ?_, fun hs => ?_⟩
  · simp [Mqtt.Initialize, hbg, ht, hu, hc, hcc, hco]
  · simp [Mqtt.Initialize]
  · simp [Mqtt.onConnectHandler, hs]

/-- An MQTT trigger environment in which the broker connect fails. -/
def envConnectFails : Mqtt.InitEnv :=
  ⟨false, "edgex/events", true, true, true, false, false⟩

/-- Closed instance of the amended C3 theorem: the connect failure is fatal,
the subscribe result does not change the outcome of Initialize, and the failed
subscribe disconnects the client. -/
theorem mqtt_connect_failure_fatal_subscribe_not_witness :
    Mqtt.Initialize envConnectFails
      = ⟨.initError "could not connect to broker for MQTT trigger", true⟩
    ∧ Mqtt.Initialize { envConnectFails with subscribeOk := true }
      = Mqtt.Initialize envConnectFails
    ∧ Mqtt.onConnectHandler envConnectFails = ⟨false, true⟩ := by
  obtain ⟨a, b, c⟩ :=
    mqtt_connect_failure_fatal_subscribe_not envConnectFails true rfl rfl rfl rfl rfl
  exact ⟨a rfl, b, c rfl⟩

/-- C4: the batch builders do not reject an invalid threshold or interval.
The stage constructor does fail on a zero count threshold and on an
unparsable time interval, but the builder only logs that error and still
returns the Batch method of the stage (a non-nil function) instead of nil. -/
theorem batch_builder_swallows_constructor_error :
    Transforms.constructorFailed (Transforms.NewBatchByCount 0) = true
    ∧ Configurable.BatchByCount [(BatchThreshold, "0")] = some .broken
    ∧ Transforms.constructorFailed (Transforms.NewBatchByTime "xyz") = true
    ∧ Configurable.BatchByTime [(TimeInterval, "xyz")] = some .broken := by
  decide

/-- The UTF-8 bytes of the JSON document with one field a:1 (the opening
brace is byte 123). -/
def jsonDocPayload : List UInt8 := [123, 34, 97, 34, 58, 49, 125]

/-- C6: the message handler classifies a payload whose first byte is the
opening brace (byte 123) as JSON and any other leading byte as CBOR; in
particular the one-field JSON document is classified JSON and the payload
0x01 0x02 is classified CBOR. -/
theorem messageHandler_content_classification (b : UInt8) (rest : List UInt8) :
    Mqtt.classifyContentType (b :: rest)
      = some (if b = 123 then Mqtt.ContentTypeJSON else Mqtt.ContentTypeCBOR)
    ∧ Mqtt.classifyContentType jsonDocPayload = some Mqtt.ContentTypeJSON
    ∧ Mqtt.classifyContentType [1, 2] = some Mqtt.ContentTypeCBOR := by
  refine ⟨?_, rfl, rfl⟩
  by_cases hb : b = 123 <;> simp [Mqtt.classifyContentType, hb]

/-- C7: Initialize called with a non-nil background-publish channel fails
immediately with the build-time incompatibility error, before any broker
connection is attempted. -/
theorem mqtt_background_channel_rejected (env : Mqtt.InitEnv)
    (h : env.backgroundProvided = true) :
    Mqtt.Initialize env
      = ⟨.initError "background publishing not supported for services using MQTT trigger", false⟩ := by
  simp [Mqtt.Initialize, h]

/-- An MQTT trigger environment in which a background channel is supplied. -/
def envBackground : Mqtt.InitEnv :=
  ⟨true, "edgex/events", true, true, true, true, true⟩

/-- Closed instance of the C7 theorem at a concrete environment. -/
theorem mqtt_background_channel_rejected_witness :
    envBackground.backgroundProvided = true
    ∧ Mqtt.Initialize envBackground
      = ⟨.initError "background publishing not supported for services using MQTT trigger", false⟩ :=
  ⟨rfl, mqtt_background_channel_rejected envBackground rfl⟩

/-- C8: for a message with a non-empty payload the handler completes, a
response publish is attempted exactly when the runtime returned no error, the
output data is non-empty and a publish topic is configured; the publish
succeeds exactly when the broker accepts it, and a failed publish is logged
while the handler still completes with the same attempt decision. -/
theorem messageHandler_publish_policy (env : Mqtt.HandlerEnv) (h : env.payload ≠ []) :
    (Mqtt.messageHandler env).map Mqtt.HandlerOutcome.publishAttempted
      = some (!env.runtimeFails && !env.runtimeOutput.isEmpty && !env.publishTopic.isEmpty)
    ∧ (Mqtt.messageHandler env).map Mqtt.HandlerOutcome.publishSucceeded
      = some ((!env.runtimeFails && !env.runtimeOutput.isEmpty && !env.publishTopic.isEmpty)
              && env.publishOk)
    ∧ (Mqtt.messageHandler env).map Mqtt.HandlerOutcome.publishFailureLogged
      = some ((!env.runtimeFails && !env.runtimeOutput.isEmpty && !env.publishTopic.isEmpty)
              && !env.publishOk) := by
  obtain ⟨payload, topic, rf, out, pok⟩ := env
  obtain ⟨b, rest, rfl⟩ : ∃ b rest, payload = b :: rest := by
    cases payload with
    | nil => exact absurd rfl h
    | cons b rest => exact ⟨b, rest, rfl⟩
  cases rf <;> cases pok <;>
    by_cases hb : b = 123 <;>
    cases ho : out.isEmpty <;>
    cases htp : topic.isEmpty <;>
    simp [Mqtt.messageHandler, Mqtt.classifyContentType, hb, ho, htp]

/-- A handler environment: non-empty JSON payload, configured response topic,
successful runtime with non-empty output, and a broker that rejects the
response publish. -/
def envPublishFails : Mqtt.HandlerEnv := ⟨[123, 125], "edgex/response", false, [7], false⟩

/-- Closed instance of the C8 theorem: the publish is attempted, fails, and
the failure is only logged while the handler completes. -/
theorem messageHandler_publish_policy_witness :
    envPublishFails.payload ≠ [] ∧
    ((Mqtt.messageHandler envPublishFails).map Mqtt.HandlerOutcome.publishAttempted
      = some (!envPublishFails.runtimeFails && !envPublishFails.runtimeOutput.isEmpty
              && !envPublishFails.publishTopic.isEmpty)
    ∧ (Mqtt.messageHandler envPublishFails).map Mqtt.HandlerOutcome.publishSucceeded
      = some ((!envPublishFails.runtimeFails && !envPublishFails.runtimeOutput.isEmpty
              && !envPublishFails.publishTopic.isEmpty) && envPublishFails.publishOk)
    ∧ (Mqtt.messageHandler envPublishFails).map Mqtt.HandlerOutcome.publishFailureLogged
      = some ((!envPublishFails.runtimeFails && !envPublishFails.runtimeOutput.isEmpty
              && !envPublishFails.publishTopic.isEmpty) && !envPublishFails.publishOk)) :=
  ⟨by decide, messageHandler_publish_policy envPublishFails (by decide)⟩

/-- C9: the content-type classification reads payload byte 0 unconditionally,
so on a zero-length payload the access is out of bounds (modelled as `none`,
the Go index panic): the handler is not total on empty payloads. -/
theorem messageHandler_empty_payload_out_of_bounds :
    Mqtt.classifyContentType [] = none
    ∧ Mqtt.messageHandler ⟨[], "edgex/response", false, [7], true⟩ = none :=
  ⟨rfl, rfl⟩

end AppSdk
